import Mathlib

/-
Shallow embedding of the Enders-Sync RPC dispatch layer (src/src/server.ts,
current variant: the one with the `code` status field, `RPCError` and the
error-renderer registry) together with the parts of the legacy variant
(src/unnamed/part_000) cited by the claims.

TypeScript runtime values are dynamic, so request fields, validator results
and handler return values are modelled by a JS-like value type `JSValue`.
The Express `Request`/`Response` objects are opaque to the dispatcher (it
only threads them through to the validator and into the metadata), so they
are type parameters `Req`/`Res`.
-/

namespace EndersSync

/-- A JavaScript runtime value, as far as the dispatcher can observe it:
`undefined` (a missing property), `null`, booleans, numbers (modelled as
integers; the dispatcher never does arithmetic, it only tests truthiness),
strings, arrays and objects. -/
inductive JSValue where
  | undefined
  | null
  | boolean (b : Bool)
  | number (n : Int)
  | str (s : String)
  | array (elems : List JSValue)
  | object (fields : List (String × JSValue))

/-- JavaScript truthiness: `undefined`, `null`, `false`, `0` and `""` are
falsy; every other value (including empty arrays and objects) is truthy. -/
def JSValue.truthy : JSValue → Bool
  | .undefined => false
  | .null => false
  | .boolean b => b
  | .number n => n != 0
  | .str s => s != ""
  | .array _ => true
  | .object _ => true

/-- `Array.isArray(v)`. -/
def JSValue.isArray : JSValue → Bool
  | .array _ => true
  | _ => false

/-- `typeof v === 'string'`. -/
def JSValue.isString : JSValue → Bool
  | .str _ => true
  | _ => false

/-- Strict equality with the boolean literal `false`, i.e. `v === false`:
true exactly for the boolean `false`, not for any other falsy value. -/
def JSValue.isStrictFalse : JSValue → Bool
  | .boolean false => true
  | _ => false

/-- The ASCII apostrophe, written via its code point so the character never
appears literally in this file; used to spell the error strings of
server.ts that quote the method name. -/
def apos : String := String.singleton (Char.ofNat 39)

/-- `Map.prototype.get`: the value stored under `k`, if any. A JS `Map`
cannot hold a key twice; the association-list model returns the first
binding, and key-uniqueness is proved as an invariant of the reachable
states (see `Reachable`). -/
def mapGet {α : Type} (m : List (String × α)) (k : String) : Option α :=
  (m.find? (fun p => p.1 == k)).map (fun p => p.2)

/-- `Map.prototype.set`: overwrite the binding of an existing key in place
(a JS `Map` keeps the key at its original insertion position), otherwise
append a fresh binding at the end. -/
def mapSet {α : Type} (m : List (String × α)) (k : String) (v : α) : List (String × α) :=
  if m.any (fun p => p.1 == k) then
    m.map (fun p => if p.1 == k then (k, v) else p)
  else
    m ++ [(k, v)]

/-- `Array.from(m.keys())`: the keys in insertion order. -/
def mapKeys {α : Type} (m : List (String × α)) : List String :=
  m.map (fun p => p.1)

/-- The `Metadata` interface: the `auth` record of claims handed to the
handler, plus the request and response objects that `RPC.handler` attaches
before the call (`metadata.req = req; metadata.res = res`). -/
structure Metadata (Req Res : Type) where
  auth : List (String × JSValue)
  req : Option Req := none
  res : Option Res := none

/-- The `RPCError` class: a labeled error with string parameters and its
own HTTP-style status code, thrown by handlers. -/
structure RPCError where
  error_label : String
  error_params : List (String × String)
  status_code : Nat

/-- The outcome of awaiting a handler call: a returned (resolved) value, a
thrown `RPCError`, or any other thrown value (carrying only a message). -/
inductive HandlerResult where
  | ok (value : JSValue)
  | throwRPC (e : RPCError)
  | throwOther (message : String)

/-- The `RPCHandler` type: a registered function receiving the metadata and
the positional parameters. -/
def RPCHandler (Req Res : Type) : Type :=
  Metadata Req Res → List JSValue → HandlerResult

/-- The `ValidatorReturn` interface. The TS type annotates `success` as
`boolean`, but the dispatcher tests it with `=== false` at runtime, so it
is modelled as a dynamic value. -/
structure ValidatorReturn (Req Res : Type) where
  success : JSValue
  metadata : Option (Metadata Req Res) := none

/-- A renderer registered in the error-renderer registry
(`RPCErrorHandler` in the source): parameters to display message. -/
def RPCErrorHandler : Type :=
  List (String × String) → String

/-- The `RPCRequest` body: `method`, `params` and `version` as they arrive
from JSON (any of them may be `undefined` when absent). -/
structure RPCRequest where
  method : JSValue
  params : JSValue
  version : JSValue := .undefined

/-- The `RPCResponse` envelope: `success`, optional `data`, optional
`error`, and the `code` status field. -/
structure RPCResponse where
  success : Bool
  data : Option JSValue := none
  error : Option String := none
  code : Nat

/-- The `RPC` class state: the error-renderer registry, the function
registry, and the pluggable validator (defaulting to
`() => { return { success: true }; }`). -/
structure RPC (Req Res : Type) where
  error_handlers_registry : List (String × RPCErrorHandler) := []
  functions : List (String × RPCHandler Req Res) := []
  validator : Req → ValidatorReturn Req Res := fun _ => { success := .boolean true }

/-- `RPC.handleError`: register a renderer for a label. -/
def RPC.handleError {Req Res : Type} (rpc : RPC Req Res) (label : String)
    (error_handler : RPCErrorHandler) : RPC Req Res :=
  { rpc with error_handlers_registry := mapSet rpc.error_handlers_registry label error_handler }

/-- Lines 137-139 of server.ts: `validation.metadata || { auth: {} }`
followed by `metadata.req = req; metadata.res = res`. A present metadata
object is always truthy, so `||` only replaces an absent one. -/
def buildMetadata {Req Res : Type} (validation : ValidatorReturn Req Res)
    (req : Req) (res : Res) : Metadata Req Res :=
  let metadata := validation.metadata.getD { auth := [] }
  { metadata with req := some req, res := some res }

/-- `...(params || [])` at the call site, where `params` is either an array
or falsy (truthy non-arrays were rejected by shape validation): the
array's elements, or no arguments. -/
def paramsOrEmpty : JSValue → List JSValue
  | .array elems => elems
  | _ => []

/-- The try/catch block of `RPC.handler` (lines 142-181): wrap a returned
value as a 200 success envelope; translate a thrown `RPCError` through the
renderer registry (generic 500 when its label has no renderer, otherwise
the rendered message with the error's own status code); translate any
other thrown value to the generic 500 envelope. -/
def RPC.classify {Req Res : Type} (rpc : RPC Req Res) : HandlerResult → RPCResponse
  | .ok result =>
    { success := true, data := some result, code := 200 }
  | .throwRPC e =>
    match mapGet rpc.error_handlers_registry e.error_label with
    | none =>
      { success := false, error := some "Error 500: operation failed", code := 500 }
    | some error_handler =>
      { success := false, error := some (error_handler e.error_params), code := e.status_code }
  | .throwOther _ =>
    { success := false, error := some "Error 500: operation failed", code := 500 }

/-- `RPC.handler` (lines 87-183 of server.ts), the dispatch pipeline:
shape validation (falsy method, non-string method, truthy non-array
params), registry lookup, the `=== false` authorization test, metadata
construction, handler invocation and error classification. -/
def RPC.handler {Req Res : Type} (rpc : RPC Req Res) (requestData : RPCRequest)
    (req : Req) (res : Res) : RPCResponse :=
  let methodName := requestData.method;
  let params := requestData.params;
  if methodName.truthy = false then
    { success := false, code := 400,
      error := some ("bad request: the request need to have \"method\" and \"params\"") }
  else
    match methodName with
    | .str name =>
      if params.truthy && !params.isArray then
        { success := false,
          error := some "bad request: RPC params should be a list", code := 400 }
      else
        match mapGet rpc.functions name with
        | none =>
          { success := false,
            error := some ("RPC function " ++ apos ++ name ++ apos ++ " not found"),
            code := 400 }
        | some functionHandler =>
          let validation := rpc.validator req
          if validation.success.isStrictFalse then
            { success := false, error := some "authorization failed", code := 403 }
          else
            rpc.classify (functionHandler (buildMetadata validation req res) (paramsOrEmpty params))
    | _ =>
      { success := false, code := 404,
        error := some ("bad request: RPC function doesn" ++ apos ++ "t exist") }

/-- `RPC.dump`: the registered names, in insertion order. -/
def RPC.dump {Req Res : Type} (rpc : RPC Req Res) : List String :=
  mapKeys rpc.functions

/-- Lines 192-198 of `RPC.add`: the registered name is `optional_name`
when that is truthy (non-null and non-empty), otherwise the function's own
`name` property (`handlerName` here, since Lean functions carry no name). -/
def resolvedName (handlerName : String) (optional_name : Option String) : String :=
  match optional_name with
  | some given => if given ≠ "" then given else handlerName
  | none => handlerName

/-- `RPC.add`: register a handler under its resolved name, throwing
`Error('Function must have a name')` when the name is empty. -/
def RPC.add {Req Res : Type} (rpc : RPC Req Res) (functionHandler : RPCHandler Req Res)
    (handlerName : String) (optional_name : Option String) : Except String (RPC Req Res) :=
  let func_name := resolvedName handlerName optional_name
  if func_name = "" then
    .error "Function must have a name"
  else
    .ok { rpc with functions := mapSet rpc.functions func_name functionHandler }

/-- The `RPC` states reachable through the public API: construction
(`createRPC` builds `new RPC()` and installs a validator; both registries
start empty) followed by any sequence of successful `add` and
`handleError` calls. The `functions` map is private and mutated nowhere
else. -/
inductive Reachable {Req Res : Type} : RPC Req Res → Prop where
  | init (validator : Req → ValidatorReturn Req Res) :
      Reachable { validator := validator }
  | addFn {rpc rpc2 : RPC Req Res} (fh : RPCHandler Req Res) (hn : String)
      (oname : Option String) (h : Reachable rpc)
      (hadd : rpc.add fh hn oname = .ok rpc2) : Reachable rpc2
  | addErr {rpc : RPC Req Res} (label : String) (eh : RPCErrorHandler)
      (h : Reachable rpc) : Reachable (rpc.handleError label eh)

/-! ## Lemmas about the JS `Map` model -/

theorem mapKeys_mapSet {α : Type} (m : List (String × α)) (k : String) (v : α) :
    mapKeys (mapSet m k v) = if k ∈ mapKeys m then mapKeys m else mapKeys m ++ [k] := by
  unfold mapSet
  by_cases hmem : k ∈ mapKeys m
  · have hany : m.any (fun p => p.1 == k) = true := by
      rw [List.any_eq_true]
      obtain ⟨p, hp, hpk⟩ := List.mem_map.mp hmem
      exact ⟨p, hp, by simp [hpk]⟩
    rw [hany]
    simp only [if_pos hmem, if_true]
    unfold mapKeys
    rw [List.map_map]
    apply List.map_congr_left
    intro p _
    by_cases hpk : p.1 = k <;> simp [hpk]
  · have hany : m.any (fun p => p.1 == k) = false := by
      rw [Bool.eq_false_iff]
      intro hc
      rw [List.any_eq_true] at hc
      obtain ⟨p, hp, hpk⟩ := hc
      exact hmem (List.mem_map.mpr ⟨p, hp, by simpa using hpk⟩)
    rw [hany]
    simp only [if_neg hmem, Bool.false_eq_true, if_false]
    unfold mapKeys
    simp

theorem mapGet_cons {α : Type} (q : String × α) (qs : List (String × α)) (k : String) :
    mapGet (q :: qs) k = if q.1 = k then some q.2 else mapGet qs k := by
  by_cases h : q.1 = k
  · rw [if_pos h]
    unfold mapGet
    rw [List.find?_cons_of_pos _ (by simpa using h)]
    rfl
  · rw [if_neg h]
    unfold mapGet
    rw [List.find?_cons_of_neg _ (by simpa using h)]

theorem mapSet_cons_ne {α : Type} (q : String × α) (qs : List (String × α))
    (k : String) (v : α) (h : q.1 ≠ k) :
    mapSet (q :: qs) k v = q :: mapSet qs k v := by
  unfold mapSet
  by_cases hq : qs.any (fun p => p.1 == k) = true
  · simp [List.any_cons, h, hq]
  · rw [Bool.not_eq_true] at hq
    simp [List.any_cons, h, hq]

theorem mapSet_cons_eq {α : Type} (q : String × α) (qs : List (String × α))
    (k : String) (v : α) (h : q.1 = k) :
    mapSet (q :: qs) k v = (k, v) :: qs.map (fun p => if p.1 = k then (k, v) else p) := by
  unfold mapSet
  simp [List.any_cons, h]

theorem mapGet_mapSet_self {α : Type} (m : List (String × α)) (k : String) (v : α) :
    mapGet (mapSet m k v) k = some v := by
  induction m with
  | nil =>
    unfold mapSet mapGet
    simp [List.find?]
  | cons q qs ih =>
    by_cases hq : q.1 = k
    · rw [mapSet_cons_eq q qs k v hq, mapGet_cons]
      simp
    · rw [mapSet_cons_ne q qs k v hq, mapGet_cons, if_neg hq]
      exact ih

theorem mem_mapKeys_iff_mapGet {α : Type} (m : List (String × α)) (k : String) :
    k ∈ mapKeys m ↔ ∃ v, mapGet m k = some v := by
  induction m with
  | nil =>
    unfold mapKeys mapGet
    simp [List.find?]
  | cons q qs ih =>
    rw [mapGet_cons]
    by_cases hq : q.1 = k
    · simp [mapKeys, hq]
    · rw [if_neg hq]
      rw [show mapKeys (q :: qs) = q.1 :: mapKeys qs from rfl]
      simp only [List.mem_cons]
      constructor
      · rintro (h | h)
        · exact absurd h.symm hq
        · exact ih.mp h
      · intro h
        exact Or.inr (ih.mpr h)

theorem nodup_mapKeys_mapSet {α : Type} (m : List (String × α)) (k : String) (v : α)
    (h : (mapKeys m).Nodup) : (mapKeys (mapSet m k v)).Nodup := by
  rw [mapKeys_mapSet]
  by_cases hmem : k ∈ mapKeys m
  · rwa [if_pos hmem]
  · rw [if_neg hmem, List.nodup_append]
    exact ⟨h, List.nodup_singleton k, by simpa using hmem⟩

/-! ## Lemmas about the dispatch pipeline -/

/-- Dispatch on a request that passes shape validation and resolves a
handler reduces to the authorization test followed by invocation and
classification. -/
theorem handler_resolved {Req Res : Type} (rpc : RPC Req Res) (rd : RPCRequest)
    (req : Req) (res : Res) (name : String) (fh : RPCHandler Req Res)
    (hm : rd.method = JSValue.str name) (hnm : name ≠ "")
    (hp : (rd.params.truthy && !rd.params.isArray) = false)
    (hreg : mapGet rpc.functions name = some fh) :
    rpc.handler rd req res =
      if (rpc.validator req).success.isStrictFalse then
        { success := false, error := some "authorization failed", code := 403 }
      else
        rpc.classify (fh (buildMetadata (rpc.validator req) req res) (paramsOrEmpty rd.params)) := by
  unfold RPC.handler
  rw [hm]
  rw [if_neg (by simp [JSValue.truthy, hnm])]
  dsimp only
  rw [if_neg (by simp [hp]), hreg]

/-! ## Concrete fixtures used by witnesses and counterexamples -/

/-- A handler that always returns the number 7. -/
def sampleHandler : RPCHandler Unit Unit :=
  fun _ _ => HandlerResult.ok (JSValue.number 7)

/-- An RPC instance with `sampleHandler` registered under "greet" and the
default (always-authorizing) validator. -/
def sampleRPC : RPC Unit Unit :=
  { functions := [("greet", sampleHandler)] }

/-- An RPC instance whose validator rejects every call with a strict
`success: false`. -/
def rejectingRPC : RPC Unit Unit :=
  { functions := [("greet", sampleHandler)],
    validator := fun _ => { success := JSValue.boolean false } }

/-! ## Claim C1 -/

/-- C1: for every request whose method names a registered handler, whose
params (if present) is a list, and which the validator authorizes,
dispatch returns the envelope with `success: true`, `data` exactly the
handler's (awaited) return value, `code` 200, and no `error` field. -/
theorem c1_success_envelope {Req Res : Type} (rpc : RPC Req Res) (rd : RPCRequest)
    (req : Req) (res : Res) (name : String) (fh : RPCHandler Req Res) (v : JSValue)
    (hm : rd.method = JSValue.str name) (hnm : name ≠ "")
    (hp : rd.params = JSValue.undefined ∨ ∃ xs, rd.params = JSValue.array xs)
    (hreg : mapGet rpc.functions name = some fh)
    (hauth : (rpc.validator req).success.isStrictFalse = false)
    (hrun : fh (buildMetadata (rpc.validator req) req res) (paramsOrEmpty rd.params) =
      HandlerResult.ok v) :
    rpc.handler rd req res =
      { success := true, data := some v, error := none, code := 200 } := by
  have hp2 : (rd.params.truthy && !rd.params.isArray) = false := by
    rcases hp with h | ⟨xs, h⟩ <;> simp [h, JSValue.truthy, JSValue.isArray]
  rw [handler_resolved rpc rd req res name fh hm hnm hp2 hreg,
    if_neg (by simp [hauth]), hrun]
  rfl

/-- Witness for C1 at a concrete instance. -/
theorem c1_success_envelope_witness :
    sampleRPC.handler { method := JSValue.str "greet", params := JSValue.undefined } () () =
      { success := true, data := some (JSValue.number 7), error := none, code := 200 } :=
  c1_success_envelope sampleRPC _ () () "greet" sampleHandler (JSValue.number 7)
    rfl (by decide) (Or.inl rfl) rfl rfl rfl

/-! ## Claim C2 -/

/-- C2 counterexample: the claim's third clause says a request whose
`params` is present and not a list gets status 400. But the code tests
`params && !Array.isArray(params)`, i.e. truthiness, not presence: with
`params: null` — present (an explicit JSON null, not a missing property)
and not a list — dispatch proceeds past shape validation and returns the
200 success envelope of the registered handler, not 400. -/
theorem c2_counterexample :
    (JSValue.null ≠ JSValue.undefined) ∧
    JSValue.null.isArray = false ∧
    sampleRPC.handler { method := JSValue.str "greet", params := JSValue.null } () () =
      { success := true, data := some (JSValue.number 7), error := none, code := 200 } ∧
    (sampleRPC.handler { method := JSValue.str "greet", params := JSValue.null } () ()).code ≠ 400 :=
  ⟨fun h => JSValue.noConfusion h, rfl, rfl, by decide⟩

/-- C2 (amended): dispatch validates request shape in a fixed order,
short-circuiting at the first failing check and before any registry
lookup, authorization, or handler invocation (the response below is the
same for every registry, validator and handler): a falsy method gives
success:false with status 400; a truthy non-string method gives
success:false with status 404; a TRUTHY non-list params (presence alone
is not enough: falsy params such as null, 0 or "" are treated as absent)
gives success:false with status 400. -/
theorem c2_shape_validation_order {Req Res : Type} (rpc : RPC Req Res) (rd : RPCRequest)
    (req : Req) (res : Res) :
    (rd.method.truthy = false →
      rpc.handler rd req res =
        { success := false, data := none,
          error := some "bad request: the request need to have \"method\" and \"params\"",
          code := 400 }) ∧
    (rd.method.truthy = true → rd.method.isString = false →
      rpc.handler rd req res =
        { success := false, data := none,
          error := some ("bad request: RPC function doesn" ++ apos ++ "t exist"),
          code := 404 }) ∧
    (rd.method.truthy = true → rd.method.isString = true →
      rd.params.truthy = true → rd.params.isArray = false →
      rpc.handler rd req res =
        { success := false, data := none,
          error := some "bad request: RPC params should be a list", code := 400 }) := by
  refine ⟨fun hfalsy => ?_, fun htruthy hnotstr => ?_, fun htruthy hstr hpt hpa => ?_⟩
  · unfold RPC.handler
    rw [if_pos hfalsy]
  · unfold RPC.handler
    rw [if_neg (by simp [htruthy])]
    cases hmv : rd.method
    case str s =>
      rw [hmv] at hnotstr
      exact absurd hnotstr (by simp [JSValue.isString])
    all_goals rfl
  · cases hmv : rd.method
    case str s =>
      unfold RPC.handler
      rw [hmv, if_neg (by rw [hmv] at htruthy; simp [htruthy])]
      dsimp only
      rw [if_pos (by simp [hpt, hpa])]
    all_goals (rw [hmv] at hstr; exact absurd hstr (by simp [JSValue.isString]))

/-- Witness for the amended C2, exercising all three validation branches
at concrete requests. -/
theorem c2_shape_validation_order_witness :
    (sampleRPC.handler { method := JSValue.undefined, params := JSValue.array [] } () () =
      { success := false, data := none,
        error := some "bad request: the request need to have \"method\" and \"params\"",
        code := 400 }) ∧
    (sampleRPC.handler { method := JSValue.number 5, params := JSValue.undefined } () () =
      { success := false, data := none,
        error := some ("bad request: RPC function doesn" ++ apos ++ "t exist"),
        code := 404 }) ∧
    (sampleRPC.handler { method := JSValue.str "greet", params := JSValue.str "x" } () () =
      { success := false, data := none,
        error := some "bad request: RPC params should be a list", code := 400 }) :=
  ⟨(c2_shape_validation_order sampleRPC _ () ()).1 rfl,
   (c2_shape_validation_order sampleRPC _ () ()).2.1 (by decide) rfl,
   (c2_shape_validation_order sampleRPC _ () ()).2.2 (by decide) rfl (by decide) rfl⟩

/-! ## Claim C3 -/

/-- C3: a request that passes shape validation but whose method names no
registered handler gets success:false with status 400 (and not 404), and
the error text contains the requested method name. -/
theorem c3_unknown_method {Req Res : Type} (rpc : RPC Req Res) (rd : RPCRequest)
    (req : Req) (res : Res) (name : String)
    (hm : rd.method = JSValue.str name) (hnm : name ≠ "")
    (hp : (rd.params.truthy && !rd.params.isArray) = false)
    (hreg : mapGet rpc.functions name = none) :
    (rpc.handler rd req res).success = false ∧
    (rpc.handler rd req res).code = 400 ∧
    (rpc.handler rd req res).code ≠ 404 ∧
    ∃ front back, (rpc.handler rd req res).error = some (front ++ name ++ back) := by
  have h : rpc.handler rd req res =
      { success := false,
        error := some ("RPC function " ++ apos ++ name ++ apos ++ " not found"),
        code := 400 } := by
    unfold RPC.handler
    rw [hm, if_neg (by simp [JSValue.truthy, hnm])]
    dsimp only
    rw [if_neg (by simp [hp]), hreg]
  rw [h]
  refine ⟨rfl, rfl, ?_, "RPC function " ++ apos, apos ++ " not found", ?_⟩
  · simp
  · simp [String.append_assoc]

/-- Witness for C3 at a concrete instance: an empty registry. -/
theorem c3_unknown_method_witness :
    ((({} : RPC Unit Unit)).handler { method := JSValue.str "nope", params := JSValue.undefined } () ()).success = false ∧
    ((({} : RPC Unit Unit)).handler { method := JSValue.str "nope", params := JSValue.undefined } () ()).code = 400 ∧
    ((({} : RPC Unit Unit)).handler { method := JSValue.str "nope", params := JSValue.undefined } () ()).code ≠ 404 ∧
    ∃ front back,
      ((({} : RPC Unit Unit)).handler { method := JSValue.str "nope", params := JSValue.undefined } () ()).error =
        some (front ++ "nope" ++ back) :=
  c3_unknown_method {} _ () () "nope" rfl (by decide) rfl rfl

/-! ## Claim C4 -/

/-- C4: when the validator rejects a call that reached the authorization
step, dispatch returns `{success: false, error: "authorization failed",
code: 403}`. The resolved handler is never invoked: the registered
handler `fh` is universally quantified and does not occur in the
response, so the outcome is the same whatever handler is bound under the
resolved name. -/
theorem c4_authorization_rejected {Req Res : Type} (rpc : RPC Req Res) (rd : RPCRequest)
    (req : Req) (res : Res) (name : String) (fh : RPCHandler Req Res)
    (hm : rd.method = JSValue.str name) (hnm : name ≠ "")
    (hp : (rd.params.truthy && !rd.params.isArray) = false)
    (hreg : mapGet rpc.functions name = some fh)
    (hauth : (rpc.validator req).success.isStrictFalse = true) :
    rpc.handler rd req res =
      { success := false, data := none, error := some "authorization failed", code := 403 } := by
  rw [handler_resolved rpc rd req res name fh hm hnm hp hreg, if_pos hauth]

/-- Witness for C4 at a concrete instance with a rejecting validator. -/
theorem c4_authorization_rejected_witness :
    rejectingRPC.handler { method := JSValue.str "greet", params := JSValue.array [] } () () =
      { success := false, data := none, error := some "authorization failed", code := 403 } :=
  c4_authorization_rejected rejectingRPC _ () () "greet" sampleHandler rfl (by decide) rfl rfl rfl

/-! ## Claim C5 -/

/-- C5: a handler failure that is an `RPCError` whose label has a renderer
registered in the error-renderer registry yields success:false, an error
message that is exactly the renderer applied to the error's parameters,
and the error's own status code. -/
theorem c5_rendered_error {Req Res : Type} (rpc : RPC Req Res) (rd : RPCRequest)
    (req : Req) (res : Res) (name : String) (fh : RPCHandler Req Res)
    (e : RPCError) (renderer : RPCErrorHandler)
    (hm : rd.method = JSValue.str name) (hnm : name ≠ "")
    (hp : (rd.params.truthy && !rd.params.isArray) = false)
    (hreg : mapGet rpc.functions name = some fh)
    (hauth : (rpc.validator req).success.isStrictFalse = false)
    (hrun : fh (buildMetadata (rpc.validator req) req res) (paramsOrEmpty rd.params) =
      HandlerResult.throwRPC e)
    (hrend : mapGet rpc.error_handlers_registry e.error_label = some renderer) :
    rpc.handler rd req res =
      { success := false, data := none,
        error := some (renderer e.error_params), code := e.status_code } := by
  rw [handler_resolved rpc rd req res name fh hm hnm hp hreg,
    if_neg (by simp [hauth]), hrun]
  unfold RPC.classify
  dsimp only
  rw [hrend]

/-- A handler that throws an `RPCError` labeled "not_found" with one
parameter and status 418. -/
def throwingHandler : RPCHandler Unit Unit :=
  fun _ _ => HandlerResult.throwRPC
    { error_label := "not_found", error_params := [("id", "42")], status_code := 418 }

/-- A renderer for the "not_found" label. -/
def sampleRenderer : RPCErrorHandler :=
  fun ps => "missing item " ++ (mapGet ps "id").getD "?"

/-- An RPC instance where "boom" throws a rendered `RPCError`. -/
def renderingRPC : RPC Unit Unit :=
  { functions := [("boom", throwingHandler)],
    error_handlers_registry := [("not_found", sampleRenderer)] }

/-- Witness for C5 at a concrete instance: the renderer output ("missing
item 42") and the error's own status code (418) reach the caller. -/
theorem c5_rendered_error_witness :
    renderingRPC.handler { method := JSValue.str "boom", params := JSValue.undefined } () () =
      { success := false, data := none,
        error := some (sampleRenderer [("id", "42")]), code := 418 } :=
  c5_rendered_error renderingRPC _ () () "boom" throwingHandler
    { error_label := "not_found", error_params := [("id", "42")], status_code := 418 }
    sampleRenderer rfl (by decide) rfl rfl rfl rfl rfl

/-! ## Claim C6 -/

/-- C6: a handler failure that is an `RPCError` with no registered
renderer for its label, or any unstructured exception, yields the fixed
generic envelope `{success: false, error: "Error 500: operation failed",
code: 500}`. The envelope is a constant that does not depend on the
thrown error `e` or message `msg`, so the label, the parameters and the
original exception text never appear in the response body. -/
theorem c6_generic_500 {Req Res : Type} (rpc : RPC Req Res) (rd : RPCRequest)
    (req : Req) (res : Res) (name : String) (fh : RPCHandler Req Res)
    (hm : rd.method = JSValue.str name) (hnm : name ≠ "")
    (hp : (rd.params.truthy && !rd.params.isArray) = false)
    (hreg : mapGet rpc.functions name = some fh)
    (hauth : (rpc.validator req).success.isStrictFalse = false)
    (hfail :
      (∃ e, fh (buildMetadata (rpc.validator req) req res) (paramsOrEmpty rd.params) =
          HandlerResult.throwRPC e ∧
        mapGet rpc.error_handlers_registry e.error_label = none) ∨
      (∃ msg, fh (buildMetadata (rpc.validator req) req res) (paramsOrEmpty rd.params) =
          HandlerResult.throwOther msg)) :
    rpc.handler rd req res =
      { success := false, data := none,
        error := some "Error 500: operation failed", code := 500 } := by
  rw [handler_resolved rpc rd req res name fh hm hnm hp hreg, if_neg (by simp [hauth])]
  rcases hfail with ⟨e, hrun, hrend⟩ | ⟨msg, hrun⟩
  · rw [hrun]
    unfold RPC.classify
    dsimp only
    rw [hrend]
  · rw [hrun]
    rfl

/-- An RPC instance where "boom" throws an `RPCError` whose label has no
renderer, and "crash" throws an unstructured failure. -/
def unrenderedRPC : RPC Unit Unit :=
  { functions :=
      [("boom", throwingHandler),
       ("crash", fun _ _ => HandlerResult.throwOther "secret internal detail")] }

/-- Witness for C6 at concrete instances: both failure shapes produce the
same generic 500 envelope, with no trace of the label, the parameters or
the original message. -/
theorem c6_generic_500_witness :
    unrenderedRPC.handler { method := JSValue.str "boom", params := JSValue.undefined } () () =
      { success := false, data := none,
        error := some "Error 500: operation failed", code := 500 } ∧
    unrenderedRPC.handler { method := JSValue.str "crash", params := JSValue.undefined } () () =
      { success := false, data := none,
        error := some "Error 500: operation failed", code := 500 } :=
  ⟨c6_generic_500 unrenderedRPC _ () () "boom" throwingHandler rfl (by decide) rfl rfl rfl
      (Or.inl ⟨{ error_label := "not_found", error_params := [("id", "42")], status_code := 418 },
        rfl, rfl⟩),
   c6_generic_500 unrenderedRPC _ () () "crash"
      (fun _ _ => HandlerResult.throwOther "secret internal detail") rfl (by decide) rfl rfl rfl
      (Or.inr ⟨"secret internal detail", rfl⟩)⟩

/-! ## Claim C7 -/

/-- Every envelope produced by the error classifier populates exactly one
of data and error. -/
theorem classify_one_of {Req Res : Type} (rpc : RPC Req Res) (r : HandlerResult) :
    ((rpc.classify r).data.isSome = (rpc.classify r).success) ∧
    ((rpc.classify r).error.isSome = !(rpc.classify r).success) := by
  cases r with
  | ok v => exact ⟨rfl, rfl⟩
  | throwRPC e =>
    unfold RPC.classify
    dsimp only
    cases mapGet rpc.error_handlers_registry e.error_label <;> exact ⟨rfl, rfl⟩
  | throwOther msg => exact ⟨rfl, rfl⟩

/-- C7: every RPCResponse produced by dispatch — for every request,
registry, validator and handler — populates exactly one of data and
error: data is present iff success is true, error is present iff success
is false. -/
theorem c7_exactly_one_of_data_error {Req Res : Type} (rpc : RPC Req Res)
    (rd : RPCRequest) (req : Req) (res : Res) :
    ((rpc.handler rd req res).data.isSome = (rpc.handler rd req res).success) ∧
    ((rpc.handler rd req res).error.isSome = !(rpc.handler rd req res).success) := by
  have key : ∀ (r : RPCResponse), r = rpc.handler rd req res →
      (r.data.isSome = r.success ∧ r.error.isSome = !r.success) := by
    intro r hr
    unfold RPC.handler at hr
    dsimp only at hr
    repeat' split at hr
    all_goals first
      | (subst hr; exact ⟨rfl, rfl⟩)
      | (rw [hr]; exact classify_one_of _ _)
  exact key _ rfl

/-! ## Claim C8 -/

/-- C8: registry keys are unique and registration is last-write-wins.
After two `add` calls resolving to the same name, the lookup yields the
second handler, the name occurs exactly once among the registered names,
and a subsequent dispatch of that name produces the envelope of the
second handler's result — the first handler `h1` does not occur in the
conclusion at all. -/
theorem c8_last_write_wins {Req Res : Type} (rpc : RPC Req Res)
    (h1 h2 : RPCHandler Req Res) (hn1 hn2 nm : String) (rpc1 rpc2 : RPC Req Res)
    (hnm : nm ≠ "") (hnodup : rpc.dump.Nodup)
    (hadd1 : rpc.add h1 hn1 (some nm) = .ok rpc1)
    (hadd2 : rpc1.add h2 hn2 (some nm) = .ok rpc2) :
    mapGet rpc2.functions nm = some h2 ∧
    rpc2.dump.count nm = 1 ∧
    (∀ (req : Req) (res : Res) (rd : RPCRequest),
      rd.method = JSValue.str nm →
      (rd.params.truthy && !rd.params.isArray) = false →
      rpc2.handler rd req res =
        if (rpc2.validator req).success.isStrictFalse then
          { success := false, error := some "authorization failed", code := 403 }
        else
          rpc2.classify
            (h2 (buildMetadata (rpc2.validator req) req res) (paramsOrEmpty rd.params))) := by
  have hr1 : rpc1 = { rpc with functions := mapSet rpc.functions nm h1 } := by
    unfold RPC.add resolvedName at hadd1
    dsimp only at hadd1
    rw [if_pos hnm, if_neg hnm] at hadd1
    injection hadd1 with h
    exact h.symm
  have hr2 : rpc2 = { rpc1 with functions := mapSet rpc1.functions nm h2 } := by
    unfold RPC.add resolvedName at hadd2
    dsimp only at hadd2
    rw [if_pos hnm, if_neg hnm] at hadd2
    injection hadd2 with h
    exact h.symm
  have hget : mapGet rpc2.functions nm = some h2 := by
    rw [hr2]
    exact mapGet_mapSet_self _ _ _
  have hmem : nm ∈ rpc2.dump :=
    (mem_mapKeys_iff_mapGet rpc2.functions nm).mpr ⟨h2, hget⟩
  have hnodup2 : rpc2.dump.Nodup := by
    rw [hr2, hr1]
    exact nodup_mapKeys_mapSet _ _ _ (nodup_mapKeys_mapSet _ _ _ hnodup)
  refine ⟨hget, List.count_eq_one_of_mem hnodup2 hmem, ?_⟩
  intro req res rd hm hp
  exact handler_resolved rpc2 rd req res nm h2 hm hnm hp hget

/-- First handler for the C8 witness. -/
def firstHandler : RPCHandler Unit Unit :=
  fun _ _ => HandlerResult.ok (JSValue.number 1)

/-- Second handler for the C8 witness. -/
def secondHandler : RPCHandler Unit Unit :=
  fun _ _ => HandlerResult.ok (JSValue.number 2)

/-- Witness for C8 at a concrete instance: two registrations under "f". -/
theorem c8_last_write_wins_witness :
    mapGet ({ functions := [("f", secondHandler)] } : RPC Unit Unit).functions "f" =
      some secondHandler ∧
    ({ functions := [("f", secondHandler)] } : RPC Unit Unit).dump.count "f" = 1 ∧
    (∀ (req res : Unit) (rd : RPCRequest),
      rd.method = JSValue.str "f" →
      (rd.params.truthy && !rd.params.isArray) = false →
      ({ functions := [("f", secondHandler)] } : RPC Unit Unit).handler rd req res =
        if ((({ functions := [("f", secondHandler)] } : RPC Unit Unit)).validator req).success.isStrictFalse then
          { success := false, error := some "authorization failed", code := 403 }
        else
          ({ functions := [("f", secondHandler)] } : RPC Unit Unit).classify
            (secondHandler
              (buildMetadata ((({ functions := [("f", secondHandler)] } : RPC Unit Unit)).validator req) req res)
              (paramsOrEmpty rd.params))) :=
  c8_last_write_wins {} firstHandler secondHandler "a" "b" "f"
    { functions := [("f", firstHandler)] } { functions := [("f", secondHandler)] }
    (by decide) List.nodup_nil rfl rfl

/-! ## Claim C9 -/

/-- Every `RPC` state reachable through the public API has duplicate-free
registered names. -/
theorem reachable_dump_nodup {Req Res : Type} (rpc : RPC Req Res)
    (h : Reachable rpc) : rpc.dump.Nodup := by
  induction h with
  | init v => exact List.nodup_nil
  | addFn fh hn oname h hadd ih =>
    unfold RPC.add at hadd
    by_cases hfn : resolvedName hn oname = ""
    · rw [if_pos hfn] at hadd
      cases hadd
    · rw [if_neg hfn] at hadd
      injection hadd with h2
      rw [← h2]
      exact nodup_mapKeys_mapSet _ _ _ ih
  | addErr label eh h ih => exact ih

/-- C9: for every reachable registry state, `dump` (the operation backing
the discover endpoint) returns exactly the currently registered names
with no duplicates, and the order is insertion order: registering a
fresh name appends it at the end, re-registering an existing name leaves
the listing unchanged. `dump` is a pure function of the state, so its
result cannot change between calls with no registration in between. -/
theorem c9_dump_names {Req Res : Type} (rpc : RPC Req Res) (h : Reachable rpc) :
    rpc.dump.Nodup ∧
    (∀ nm, nm ∈ rpc.dump ↔ ∃ fh, mapGet rpc.functions nm = some fh) ∧
    (∀ (fh : RPCHandler Req Res) (hn : String) (oname : Option String) (rpc2 : RPC Req Res),
      rpc.add fh hn oname = .ok rpc2 →
      (resolvedName hn oname ∈ rpc.dump → rpc2.dump = rpc.dump) ∧
      (resolvedName hn oname ∉ rpc.dump → rpc2.dump = rpc.dump ++ [resolvedName hn oname])) := by
  refine ⟨reachable_dump_nodup rpc h, fun nm => mem_mapKeys_iff_mapGet rpc.functions nm, ?_⟩
  intro fh hn oname rpc2 hadd
  unfold RPC.add at hadd
  by_cases hfn : resolvedName hn oname = ""
  · rw [if_pos hfn] at hadd
    cases hadd
  · rw [if_neg hfn] at hadd
    injection hadd with h2
    rw [← h2]
    constructor
    · intro hmem
      have hmem2 : resolvedName hn oname ∈ mapKeys rpc.functions := hmem
      show mapKeys (mapSet rpc.functions (resolvedName hn oname) fh) = rpc.dump
      rw [mapKeys_mapSet, if_pos hmem2]
      rfl
    · intro hmem
      have hmem2 : resolvedName hn oname ∉ mapKeys rpc.functions := hmem
      show mapKeys (mapSet rpc.functions (resolvedName hn oname) fh) =
        rpc.dump ++ [resolvedName hn oname]
      rw [mapKeys_mapSet, if_neg hmem2]
      rfl

/-- Witness for C9 at a concrete reachable state with one registration. -/
theorem c9_dump_names_witness :
    (({ functions := [("f", firstHandler)] } : RPC Unit Unit)).dump.Nodup ∧
    (∀ nm, nm ∈ (({ functions := [("f", firstHandler)] } : RPC Unit Unit)).dump ↔
      ∃ fh, mapGet (({ functions := [("f", firstHandler)] } : RPC Unit Unit)).functions nm = some fh) ∧
    (∀ (fh : RPCHandler Unit Unit) (hn : String) (oname : Option String) (rpc2 : RPC Unit Unit),
      (({ functions := [("f", firstHandler)] } : RPC Unit Unit)).add fh hn oname = .ok rpc2 →
      (resolvedName hn oname ∈ (({ functions := [("f", firstHandler)] } : RPC Unit Unit)).dump →
        rpc2.dump = (({ functions := [("f", firstHandler)] } : RPC Unit Unit)).dump) ∧
      (resolvedName hn oname ∉ (({ functions := [("f", firstHandler)] } : RPC Unit Unit)).dump →
        rpc2.dump = (({ functions := [("f", firstHandler)] } : RPC Unit Unit)).dump ++ [resolvedName hn oname])) :=
  c9_dump_names { functions := [("f", firstHandler)] }
    (Reachable.addFn firstHandler "f" none (Reachable.init _) rfl)

/-! ## Claim C10 -/

/-- C10: the authorization gate rejects only when the validator result's
success field is strictly the boolean `false` (the `=== false` test): any
other value — `undefined`, `null`, `0`, the empty string, `true`, or any
truthy value — authorizes the call and the handler is invoked on the
dispatched metadata; and when the validator result carries no metadata,
that metadata holds an empty auth mapping. -/
theorem c10_strict_false_gate {Req Res : Type} (rpc : RPC Req Res) (rd : RPCRequest)
    (req : Req) (res : Res) (name : String) (fh : RPCHandler Req Res)
    (hm : rd.method = JSValue.str name) (hnm : name ≠ "")
    (hp : (rd.params.truthy && !rd.params.isArray) = false)
    (hreg : mapGet rpc.functions name = some fh)
    (hauth : (rpc.validator req).success.isStrictFalse = false) :
    rpc.handler rd req res =
      rpc.classify (fh (buildMetadata (rpc.validator req) req res) (paramsOrEmpty rd.params)) ∧
    ((rpc.validator req).metadata = none →
      buildMetadata (rpc.validator req) req res =
        { auth := [], req := some req, res := some res }) := by
  constructor
  · rw [handler_resolved rpc rd req res name fh hm hnm hp hreg, if_neg (by simp [hauth])]
  · intro hmeta
    unfold buildMetadata
    rw [hmeta]
    rfl

/-- An RPC instance whose validator returns `success: undefined` (a falsy
value that is not strictly `false`) and no metadata. -/
def undefinedSuccessRPC : RPC Unit Unit :=
  { functions := [("greet", sampleHandler)],
    validator := fun _ => { success := JSValue.undefined } }

/-- Witness for C10 at a concrete instance: a validator whose success is
`undefined` still authorizes, the handler runs, and the metadata carries
an empty auth mapping. -/
theorem c10_strict_false_gate_witness :
    undefinedSuccessRPC.handler { method := JSValue.str "greet", params := JSValue.undefined } () () =
      undefinedSuccessRPC.classify
        (sampleHandler (buildMetadata (undefinedSuccessRPC.validator ()) () ())
          (paramsOrEmpty JSValue.undefined)) ∧
    ((undefinedSuccessRPC.validator ()).metadata = none →
      buildMetadata (undefinedSuccessRPC.validator ()) () () =
        { auth := [], req := some (), res := some () }) :=
  c10_strict_false_gate undefinedSuccessRPC _ () () "greet" sampleHandler
    rfl (by decide) rfl rfl rfl

end EndersSync
